import Mathlib

/-!
Verification of the face-tracking video recorder (src/app/components/FaceTracker.tsx).

The component is shallowly embedded: normalized coordinates are rationals,
canvas operations become an explicit list of drawing commands, the browser
environment (video decoding, frame rasterization, object URLs) is a record of
oracle functions, and the asynchronous callback chains of the storage layer
become explicit event traces whose order mirrors the order in which the
source's callbacks fire.  Pure style attributes (stroke color, line width,
fill color) are outside the spec's scope and are not modelled as commands.
-/

namespace FaceTracker

/-- Normalized bounding box of one detection (interface Detection.boundingBox). -/
structure BoundingBox where
  xCenter : ℚ
  yCenter : ℚ
  width : ℚ
  height : ℚ
  deriving DecidableEq

/-- One normalized landmark point (interface Detection.landmarks entries). -/
structure Landmark where
  x : ℚ
  y : ℚ
  deriving DecidableEq

/-- One face detection; both fields are optional in the source interface. -/
structure Detection where
  boundingBox : Option BoundingBox
  landmarks : Option (List Landmark)
  deriving DecidableEq

/-- Per-frame result delivered by the detection adapter (interface DetectionResult). -/
structure DetectionResult where
  detections : List Detection
  deriving DecidableEq

/-- Persisted metadata record (interface RecordedVideo). -/
structure RecordedVideo where
  id : String
  name : String
  timestamp : Nat
  duration : Nat
  size : Nat
  thumbnail : Option String
  deriving DecidableEq

/-- A binary blob; only its byte size is observable to the embedded code. -/
structure Blob where
  size : Nat
  deriving DecidableEq

/-- Full object-store record written by saveRecording (fields id/name/timestamp/
duration/size/data). -/
structure VideoRecord where
  id : String
  name : String
  timestamp : Nat
  duration : Nat
  size : Nat
  data : Blob
  deriving DecidableEq

/-- Canvas drawing commands issued by onResults, in issue order. -/
inductive DrawCmd where
  | clearRect (x y w h : ℚ)
  | drawImage (w h : ℚ)
  | strokeRect (x y w h : ℚ)
  | fillRect (x y w h : ℚ)
  deriving DecidableEq

/-- Commands issued for a single detection by drawFaceTracking's forEach body
(FaceTracker.tsx lines 85-111): the stroked bounding rectangle if a bounding
box is present, then one 4x4 filled square per landmark point. -/
def drawDetection (canvasWidth canvasHeight : ℚ) (d : Detection) : List DrawCmd :=
  (match d.boundingBox with
    | some bbox =>
        [DrawCmd.strokeRect
          (bbox.xCenter * canvasWidth - bbox.width * canvasWidth / 2)
          (bbox.yCenter * canvasHeight - bbox.height * canvasHeight / 2)
          (bbox.width * canvasWidth)
          (bbox.height * canvasHeight)]
    | none => []) ++
  (match d.landmarks with
    | some lms =>
        lms.map (fun lm =>
          DrawCmd.fillRect (lm.x * canvasWidth - 2) (lm.y * canvasHeight - 2) 4 4)
    | none => [])

/-- drawFaceTracking (FaceTracker.tsx lines 84-112): iterate over all
detections of the result against one canvas context. -/
def drawFaceTracking (results : DetectionResult) (canvasWidth canvasHeight : ℚ) :
    List DrawCmd :=
  (results.detections.map (drawDetection canvasWidth canvasHeight)).flatten

/-- Observable output of one onResults frame: commands issued on the overlay
canvas, commands issued on the composite canvas, and the face-detected flag. -/
structure OnResultsOutput where
  overlayCmds : List DrawCmd
  compositeCmds : List DrawCmd
  faceDetected : Bool
  deriving DecidableEq

/-- onResults (FaceTracker.tsx lines 56-123), on the path where the canvas,
composite canvas, video element and both 2d contexts exist (otherwise the
source returns early and issues nothing).  The overlay canvas is cleared, the
raw video frame is painted on the composite canvas, and when the result has at
least one detection the same drawFaceTracking function runs against both
contexts with the same width and height. -/
def onResults (videoWidth videoHeight : ℚ) (results : DetectionResult) :
    OnResultsOutput :=
  let overlayBase : List DrawCmd := [DrawCmd.clearRect 0 0 videoWidth videoHeight]
  let compositeBase : List DrawCmd := [DrawCmd.drawImage videoWidth videoHeight]
  if 0 < results.detections.length then
    { overlayCmds := overlayBase ++ drawFaceTracking results videoWidth videoHeight
      compositeCmds := compositeBase ++ drawFaceTracking results videoWidth videoHeight
      faceDetected := true }
  else
    { overlayCmds := overlayBase
      compositeCmds := compositeBase
      faceDetected := false }

/-- Whether a command is a stroked rectangle (a bounding-box rectangle). -/
def isStrokeRect : DrawCmd → Bool
  | DrawCmd.strokeRect _ _ _ _ => true
  | _ => false

/-- Whether a command is a filled rectangle (a landmark square). -/
def isFillRect : DrawCmd → Bool
  | DrawCmd.fillRect _ _ _ _ => true
  | _ => false

/-- Number of bounding rectangles in a command list. -/
def countStrokeRects (cmds : List DrawCmd) : Nat :=
  cmds.countP (fun c => isStrokeRect c)

/-- Number of landmark squares in a command list. -/
def countFillRects (cmds : List DrawCmd) : Nat :=
  cmds.countP (fun c => isFillRect c)

/-- Number of landmark points of one detection (0 when the field is absent). -/
def landmarkCount (d : Detection) : Nat :=
  match d.landmarks with
  | some lms => lms.length
  | none => 0

/-- Spec-side statement of the normalized-to-pixel conversion for a bounding
box: top-left = center * surfaceSize - size * surfaceSize / 2, dimensions =
size * surfaceSize. -/
def specBBoxRect (w h : ℚ) (bb : BoundingBox) : DrawCmd :=
  DrawCmd.strokeRect (bb.xCenter * w - bb.width * w / 2)
    (bb.yCenter * h - bb.height * h / 2) (bb.width * w) (bb.height * h)

/-- Spec-side statement of a landmark square: a small 4x4 filled square
centered at the scaled landmark point. -/
def specLandmarkSquare (w h : ℚ) (lm : Landmark) : DrawCmd :=
  DrawCmd.fillRect (lm.x * w - 2) (lm.y * h - 2) 4 4

/-- Spec-side per-detection drawing: the converted bounding rectangle when a
bounding box is present, followed by one square per landmark point. -/
def specDrawDetection (w h : ℚ) (d : Detection) : List DrawCmd :=
  d.boundingBox.toList.map (specBBoxRect w h) ++
    (d.landmarks.getD []).map (specLandmarkSquare w h)

lemma drawDetection_eq_spec (w h : ℚ) (d : Detection) :
    drawDetection w h d = specDrawDetection w h d := by
  rcases d with ⟨bb, lms⟩
  rcases bb with _ | bb <;> rcases lms with _ | lms <;>
    simp [drawDetection, specDrawDetection, specBBoxRect, specLandmarkSquare]

lemma countStrokeRects_append (a b : List DrawCmd) :
    countStrokeRects (a ++ b) = countStrokeRects a + countStrokeRects b := by
  simp [countStrokeRects, List.countP_append]

lemma countFillRects_append (a b : List DrawCmd) :
    countFillRects (a ++ b) = countFillRects a + countFillRects b := by
  simp [countFillRects, List.countP_append]

lemma countStrokeRects_drawDetection (w h : ℚ) (d : Detection) :
    countStrokeRects (drawDetection w h d) = if d.boundingBox.isSome then 1 else 0 := by
  rcases d with ⟨bb, lms⟩
  rcases bb with _ | bb <;> rcases lms with _ | lms <;>
    simp [drawDetection, countStrokeRects, List.countP_cons, List.countP_append,
      List.countP_map, Function.comp, isStrokeRect]

lemma countFillRects_drawDetection (w h : ℚ) (d : Detection) :
    countFillRects (drawDetection w h d) = landmarkCount d := by
  rcases d with ⟨bb, lms⟩
  rcases bb with _ | bb <;> rcases lms with _ | lms <;>
    simp [drawDetection, countFillRects, landmarkCount, List.countP_cons,
      List.countP_append, List.countP_map, Function.comp, isFillRect]

lemma countStrokeRects_drawFaceTracking (r : DetectionResult) (w h : ℚ) :
    countStrokeRects (drawFaceTracking r w h)
      = (r.detections.filter (fun d => d.boundingBox.isSome)).length := by
  rcases r with ⟨ds⟩
  induction ds with
  | nil => simp [drawFaceTracking, countStrokeRects]
  | cons d ds ih =>
      simp only [drawFaceTracking, List.map_cons, List.flatten_cons,
        countStrokeRects_append] at *
      rw [ih]
      rw [countStrokeRects_drawDetection]
      by_cases hd : d.boundingBox.isSome
      · simp [hd, List.filter_cons]
        omega
      · simp [hd, List.filter_cons]

lemma countFillRects_drawFaceTracking (r : DetectionResult) (w h : ℚ) :
    countFillRects (drawFaceTracking r w h)
      = (r.detections.map landmarkCount).sum := by
  rcases r with ⟨ds⟩
  induction ds with
  | nil => simp [drawFaceTracking, countFillRects]
  | cons d ds ih =>
      simp only [drawFaceTracking, List.map_cons, List.flatten_cons,
        countFillRects_append, List.sum_cons] at *
      rw [ih, countFillRects_drawDetection]

/-- State touched by the recording controller: the React state flags, the
chunk buffer ref, the recorder ref, the duration interval ref, the error
banner, and whether the composite stream ref holds a stream. -/
structure RecordingState where
  isRecording : Bool
  recordingDuration : Nat
  recordedChunks : List Blob
  mediaRecorderOpen : Bool
  intervalActive : Bool
  error : Option String
  compositeStreamReady : Bool
  deriving DecidableEq

/-- The message set by startRecording when the composite stream ref is null. -/
def notReadyMsg : String :=
  "Composite stream not ready. Please wait for camera initialization."

/-- startRecording (FaceTracker.tsx lines 366-404).  `recorderOk` is the
environment's answer to whether `new MediaRecorder(...)` with the requested
codec profile succeeds; when it throws, the catch block surfaces a failure
message and nothing else changed (the chunk buffer is only cleared after the
recorder was constructed). -/
def startRecording (recorderOk : Bool) (s : RecordingState) : RecordingState :=
  if s.compositeStreamReady = false then
    { s with error := some notReadyMsg }
  else if recorderOk then
    { s with recordedChunks := []
             mediaRecorderOpen := true
             isRecording := true
             recordingDuration := 0
             intervalActive := true }
  else
    { s with error := some "Failed to start recording" }

/-- Events of one thumbnail generation, in the order the source's event
handlers fire (FaceTracker.tsx lines 265-305). -/
inductive ThumbEvent where
  | loadedMetadata
  | seekTo (t : ℚ)
  | seeked
  | captureFrame
  | encodeImage
  | revokeUrl
  deriving DecidableEq

/-- The browser environment seen by the thumbnail generator: whether an
off-screen 2d canvas context is available, the decoder (duration of the blob
as a video, none when it cannot be decoded), and the rasterizer (the encoded
jpeg data URL of the blob's frame at a given time). -/
structure ThumbEnv where
  canvasCtxOk : Bool
  decode : Blob → Option ℚ
  rasterize : Blob → ℚ → String

/-- The event trace of a successful thumbnail generation that seeks to
time `t`. -/
def thumbTrace (t : ℚ) : List ThumbEvent :=
  [ThumbEvent.loadedMetadata, ThumbEvent.seekTo t, ThumbEvent.seeked,
    ThumbEvent.captureFrame, ThumbEvent.encodeImage, ThumbEvent.revokeUrl]

/-- generateThumbnail (FaceTracker.tsx lines 265-305): rejects when no canvas
context is available; rejects when the blob cannot be decoded as video (the
video element fires its error event); otherwise, once metadata has loaded,
assigns currentTime := min 1 (duration / 2), and only after the seeked event
rasterizes the frame, encodes it and resolves. -/
def generateThumbnail (env : ThumbEnv) (b : Blob) :
    Except String (List ThumbEvent × String) :=
  if env.canvasCtxOk = false then
    Except.error "Could not get canvas context"
  else
    match env.decode b with
    | none => Except.error "Error loading video for thumbnail"
    | some d =>
        Except.ok (thumbTrace (min 1 (d / 2)), env.rasterize b (min 1 (d / 2)))

/-- Persistent state of the two stores plus the mirrored in-memory list and
the error banner: the IndexedDB object store 'videos' (in insertion order),
the localStorage key 'savedVideos' (a JSON-encoded metadata list), and the
recordedVideos React state. -/
structure PersistState where
  objectStore : List VideoRecord
  metadataKV : List RecordedVideo
  recordedVideos : List RecordedVideo
  error : Option String

/-- Steps of saveRecording in the order its callbacks run. -/
inductive SaveEvent where
  | thumbnailGen
  | dbOpen
  | objectStoreAdd
  | txComplete
  | metadataAppend
  | stateRefresh
  | errorSurfaced
  deriving DecidableEq

/-- `new Blob(chunks)`: the assembled payload, whose size is the sum of the
chunk sizes. -/
def concatBlob (chunks : List Blob) : Blob :=
  ⟨(chunks.map Blob.size).sum⟩

/-- saveRecording (FaceTracker.tsx lines 308-363).  Returns the resulting
store state and the trace of steps performed.  No-op when the chunk buffer is
empty; aborts with an error banner (and without touching either store) when
thumbnail generation rejects; otherwise adds the full record to the object
store and, in the transaction's oncomplete callback, appends the metadata
record to localStorage and refreshes the in-memory list.  `now` stands for
Date.now() and `dateStr` for the locale string embedded in the name. -/
def saveRecording (env : ThumbEnv) (now : Nat) (dateStr : String)
    (recordingDuration : Nat) (chunks : List Blob) (s : PersistState) :
    PersistState × List SaveEvent :=
  if chunks.length = 0 then (s, [])
  else
    let blob := concatBlob chunks
    let videoId := "video_" ++ toString now
    match generateThumbnail env blob with
    | Except.error _ =>
        ({ s with error := some "Failed to save recording" },
          [SaveEvent.thumbnailGen, SaveEvent.errorSurfaced])
    | Except.ok pair =>
        let vname := "Recording_" ++ dateStr
        let videoRecord : VideoRecord :=
          ⟨videoId, vname, now, recordingDuration, blob.size, blob⟩
        let meta : RecordedVideo :=
          ⟨videoId, vname, now, recordingDuration, blob.size, some pair.2⟩
        let savedVideos := s.metadataKV ++ [meta]
        ({ s with objectStore := s.objectStore ++ [videoRecord]
                  metadataKV := savedVideos
                  recordedVideos := savedVideos },
          [SaveEvent.thumbnailGen, SaveEvent.dbOpen, SaveEvent.objectStoreAdd,
            SaveEvent.txComplete, SaveEvent.metadataAppend, SaveEvent.stateRefresh])

/-- The object-store read used by playVideo/downloadVideo/loadSavedVideos:
`store.get(videoId)`, whose onsuccess result is undefined when no record with
that key exists. -/
def getVideo (videoId : String) (s : PersistState) : Option VideoRecord :=
  s.objectStore.find? (fun r => r.id == videoId)

/-- deleteVideo (FaceTracker.tsx lines 521-540): removes the object-store
record and, in the transaction's oncomplete callback, filters the id out of
the in-memory list, rewrites localStorage with the filtered list and sets the
in-memory state to it. -/
def deleteVideo (videoId : String) (s : PersistState) : PersistState :=
  let savedVideos := s.recordedVideos.filter (fun v => v.id != videoId)
  { s with objectStore := s.objectStore.filter (fun r => r.id != videoId)
           metadataKV := savedVideos
           recordedVideos := savedVideos }

/-- The thumbnail backfill applied to one metadata entry by loadSavedVideos:
entries without a thumbnail get one regenerated from their object-store
payload; a missing record or a failed generation leaves the entry unchanged
(logged and skipped). -/
def backfillVideo (env : ThumbEnv) (s : PersistState) (v : RecordedVideo) :
    RecordedVideo :=
  if v.thumbnail.isNone then
    match getVideo v.id s with
    | some vrec =>
        match generateThumbnail env vrec.data with
        | Except.ok pair => { v with thumbnail := some pair.2 }
        | Except.error _ => v
    | none => v
  else v

/-- loadSavedVideos (FaceTracker.tsx lines 407-454): reads the metadata list
from localStorage, backfills missing thumbnails from the object store
(persisting each success back), and refreshes the in-memory list. -/
def loadSavedVideos (env : ThumbEnv) (s : PersistState) : PersistState :=
  let backfilled := s.metadataKV.map (backfillVideo env s)
  { s with metadataKV := backfilled
           recordedVideos := backfilled }

/-- UI state touched by playVideo/downloadVideo. -/
structure PlayState where
  selectedVideo : Option String
  error : Option String
  successMessage : Option String
  deriving DecidableEq

/-- playVideo (FaceTracker.tsx lines 457-478).  `mkUrl` stands for
URL.createObjectURL.  When the record is missing, the onsuccess callback's
guard fails and nothing at all happens. -/
def playVideo (mkUrl : Blob → String) (videoId : String) (s : PersistState)
    (ps : PlayState) : PlayState :=
  match getVideo videoId s with
  | some v => { ps with selectedVideo := some (mkUrl v.data) }
  | none => ps

/-- Character class of the sanitizing regex [^a-zA-Z0-9]. -/
def isAlphanum (c : Char) : Bool :=
  (decide ('a' ≤ c) && decide (c ≤ 'z')) ||
  (decide ('A' ≤ c) && decide (c ≤ 'Z')) ||
  (decide ('0' ≤ c) && decide (c ≤ '9'))

/-- One character of videoName.replace(/[^a-zA-Z0-9]/g, '_'). -/
def sanitizeChar (c : Char) : Char :=
  if isAlphanum c then c else '_'

/-- videoName.replace(/[^a-zA-Z0-9]/g, '_'). -/
def sanitizeName (s : String) : String :=
  String.mk (s.toList.map sanitizeChar)

/-- The download attribute set by downloadVideo (FaceTracker.tsx line 500). -/
def downloadFileName (videoName : String) : String :=
  sanitizeName videoName ++ ".webm"

/-- downloadVideo (FaceTracker.tsx lines 481-518).  Returns the new UI state
and the file name of the triggered download, none when no download was
triggered.  When the record is missing, the onsuccess callback's guard fails
and nothing at all happens. -/
def downloadVideo (videoId videoName : String) (s : PersistState)
    (ps : PlayState) : PlayState × Option String :=
  match getVideo videoId s with
  | some _ =>
      ({ ps with successMessage := some ("Downloaded: " ++ videoName) },
        some (downloadFileName videoName))
  | none => (ps, none)

/-- First candidate CDN base URL (FaceTracker.tsx line 133). -/
def cdnUrl1 : String :=
  "https://cdn.jsdelivr.net/npm/@mediapipe/face_detection@0.4.1646425229"

/-- Second candidate CDN base URL (FaceTracker.tsx line 134). -/
def cdnUrl2 : String :=
  "https://cdn.jsdelivr.net/npm/@mediapipe/face_detection@0.4"

/-- Third candidate CDN base URL (FaceTracker.tsx line 135). -/
def cdnUrl3 : String :=
  "https://cdn.jsdelivr.net/npm/@mediapipe/face_detection"

/-- The cdnUrls array, in priority order. -/
def cdnUrls : List String := [cdnUrl1, cdnUrl2, cdnUrl3]

/-- The for-loop of initializeFaceDetection (FaceTracker.tsx lines 141-167):
try each base URL in order, breaking on the first whose construction, setup
and asynchronous init all succeed (`ok`), leaving null when every one threw. -/
def tryLoad (ok : String → Bool) : List String → Option String
  | [] => none
  | url :: rest => if ok url then some url else tryLoad ok rest

/-- The detection-adapter setup message set when every CDN source failed. -/
def initFailMsg : String :=
  "Failed to initialize face detection. Please check your internet connection and refresh the page."

/-- Observable outcome of initializeFaceDetection. -/
structure InitResult where
  loaded : Option String
  error : Option String
  isLoading : Bool
  deriving DecidableEq

/-- initializeFaceDetection (FaceTracker.tsx lines 126-182): runs the CDN
loop; on first success stores the adapter (`loaded` names the winning URL) and
clears the loading flag; when the loop ends with no adapter, the saved error
is rethrown into the catch block, which surfaces the failure message.  The
loading flag is cleared on both paths. -/
def initFaceDetection (ok : String → Bool) : InitResult :=
  match tryLoad ok cdnUrls with
  | some url => { loaded := some url, error := none, isLoading := false }
  | none => { loaded := none, error := some initFailMsg, isLoading := false }

lemma countStrokeRects_cons (c : DrawCmd) (l : List DrawCmd) :
    countStrokeRects (c :: l)
      = countStrokeRects l + (if isStrokeRect c = true then 1 else 0) := by
  simp [countStrokeRects, List.countP_cons]

lemma countFillRects_cons (c : DrawCmd) (l : List DrawCmd) :
    countFillRects (c :: l)
      = countFillRects l + (if isFillRect c = true then 1 else 0) := by
  simp [countFillRects, List.countP_cons]

/-- A detection carrying neither a bounding box nor landmark points, as the
source's Detection interface allows. -/
def noBoxDetection : Detection := ⟨none, none⟩

/-- A detection result with exactly one detection and no bounding box. -/
def noBoxResult : DetectionResult := ⟨[noBoxDetection]⟩

/-- Claim C1, counterexample: a DetectionResult with N = 1 detections whose
single detection has no bounding box makes onResults draw zero bounding
rectangles on both surfaces, not exactly N = 1 as claimed. -/
theorem C1_counterexample :
    noBoxResult.detections.length = 1 ∧
    countStrokeRects (onResults 640 480 noBoxResult).overlayCmds = 0 ∧
    countStrokeRects (onResults 640 480 noBoxResult).compositeCmds = 0 := by
  refine ⟨rfl, ?_, ?_⟩ <;> rfl

/-- Claim C1 (amended): for every DetectionResult with at least one detection,
both the overlay and the composite surface receive exactly one bounding
rectangle per detection that has a bounding box, and one small filled square
per landmark point (the sum of the landmark counts in total); both surfaces
receive the output of the same drawing function at the same surface size, and
that function performs the claimed normalized-to-pixel conversion
(top-left = center * surfaceSize - size * surfaceSize / 2, dimensions =
size * surfaceSize). -/
theorem C1_amended (w h : ℚ) (r : DetectionResult) (hn : 1 ≤ r.detections.length) :
    countStrokeRects (onResults w h r).overlayCmds
        = (r.detections.filter (fun d => d.boundingBox.isSome)).length ∧
    countFillRects (onResults w h r).overlayCmds
        = (r.detections.map landmarkCount).sum ∧
    countStrokeRects (onResults w h r).compositeCmds
        = (r.detections.filter (fun d => d.boundingBox.isSome)).length ∧
    countFillRects (onResults w h r).compositeCmds
        = (r.detections.map landmarkCount).sum ∧
    (onResults w h r).overlayCmds
        = DrawCmd.clearRect 0 0 w h :: drawFaceTracking r w h ∧
    (onResults w h r).compositeCmds
        = DrawCmd.drawImage w h :: drawFaceTracking r w h ∧
    drawFaceTracking r w h = (r.detections.map (specDrawDetection w h)).flatten := by
  have hpos : 0 < r.detections.length := hn
  have hspec : drawFaceTracking r w h
      = (r.detections.map (specDrawDetection w h)).flatten := by
    have hfun : drawDetection w h = specDrawDetection w h :=
      funext (drawDetection_eq_spec w h)
    simp only [drawFaceTracking, hfun]
  simp only [onResults, if_pos hpos, List.singleton_append]
  refine ⟨?_, ?_, ?_, ?_, by trivial, by trivial, hspec⟩ <;>
    simp [countStrokeRects_cons, countFillRects_cons, isStrokeRect, isFillRect,
      countStrokeRects_drawFaceTracking, countFillRects_drawFaceTracking]

/-- A detection result with one detection that has a bounding box and two
landmark points, for evaluating C1 at a concrete input. -/
def oneFaceResult : DetectionResult :=
  ⟨[⟨some ⟨1/2, 1/2, 1/2, 1/4⟩, some [⟨1/2, 1/2⟩, ⟨1/4, 3/4⟩]⟩]⟩

/-- Witness for the amended claim C1 at a concrete one-detection result on a
2 by 2 surface. -/
theorem C1_amended_witness :
    1 ≤ oneFaceResult.detections.length ∧
    (countStrokeRects (onResults 2 2 oneFaceResult).overlayCmds
        = (oneFaceResult.detections.filter (fun d => d.boundingBox.isSome)).length ∧
    countFillRects (onResults 2 2 oneFaceResult).overlayCmds
        = (oneFaceResult.detections.map landmarkCount).sum ∧
    countStrokeRects (onResults 2 2 oneFaceResult).compositeCmds
        = (oneFaceResult.detections.filter (fun d => d.boundingBox.isSome)).length ∧
    countFillRects (onResults 2 2 oneFaceResult).compositeCmds
        = (oneFaceResult.detections.map landmarkCount).sum ∧
    (onResults 2 2 oneFaceResult).overlayCmds
        = DrawCmd.clearRect 0 0 2 2 :: drawFaceTracking oneFaceResult 2 2 ∧
    (onResults 2 2 oneFaceResult).compositeCmds
        = DrawCmd.drawImage 2 2 :: drawFaceTracking oneFaceResult 2 2 ∧
    drawFaceTracking oneFaceResult 2 2
        = (oneFaceResult.detections.map (specDrawDetection 2 2)).flatten) :=
  ⟨by decide, C1_amended 2 2 oneFaceResult (by decide)⟩

/-- Claim C2: for every DetectionResult with zero detections, the overlay
surface receives only its clear, the composite surface receives only the raw
video frame, no rectangles or landmark squares are drawn on either surface,
and the face-detected state is set to false. -/
theorem C2_zero_detections (w h : ℚ) (r : DetectionResult)
    (hz : r.detections.length = 0) :
    (onResults w h r).overlayCmds = [DrawCmd.clearRect 0 0 w h] ∧
    (onResults w h r).compositeCmds = [DrawCmd.drawImage w h] ∧
    (onResults w h r).faceDetected = false ∧
    countStrokeRects (onResults w h r).overlayCmds = 0 ∧
    countFillRects (onResults w h r).overlayCmds = 0 ∧
    countStrokeRects (onResults w h r).compositeCmds = 0 ∧
    countFillRects (onResults w h r).compositeCmds = 0 := by
  have hneg : ¬ 0 < r.detections.length := by omega
  simp [onResults, hneg, countStrokeRects, countFillRects, isStrokeRect,
    isFillRect, List.countP_cons]

/-- Witness for claim C2 at the empty detection result on a 640 by 480
surface. -/
theorem C2_zero_detections_witness :
    (DetectionResult.mk []).detections.length = 0 ∧
    ((onResults 640 480 ⟨[]⟩).overlayCmds = [DrawCmd.clearRect 0 0 640 480] ∧
    (onResults 640 480 ⟨[]⟩).compositeCmds = [DrawCmd.drawImage 640 480] ∧
    (onResults 640 480 ⟨[]⟩).faceDetected = false ∧
    countStrokeRects (onResults 640 480 ⟨[]⟩).overlayCmds = 0 ∧
    countFillRects (onResults 640 480 ⟨[]⟩).overlayCmds = 0 ∧
    countStrokeRects (onResults 640 480 ⟨[]⟩).compositeCmds = 0 ∧
    countFillRects (onResults 640 480 ⟨[]⟩).compositeCmds = 0) :=
  ⟨rfl, C2_zero_detections 640 480 ⟨[]⟩ rfl⟩

/-- Claim C3: calling startRecording while no composite stream exists sets the
not-ready error and changes no recording state: isRecording stays false, no
recorder session is opened, the chunk buffer is untouched, and no duration
counter is started. -/
theorem C3_start_not_ready (recorderOk : Bool) (s : RecordingState)
    (hready : s.compositeStreamReady = false) (hrec : s.isRecording = false) :
    (startRecording recorderOk s).isRecording = false ∧
    (startRecording recorderOk s).recordedChunks = s.recordedChunks ∧
    (startRecording recorderOk s).mediaRecorderOpen = s.mediaRecorderOpen ∧
    (startRecording recorderOk s).intervalActive = s.intervalActive ∧
    (startRecording recorderOk s).recordingDuration = s.recordingDuration ∧
    (startRecording recorderOk s).error = some notReadyMsg := by
  simp [startRecording, hready, hrec]

/-- The idle state with no composite stream, before camera setup finished. -/
def notReadyState : RecordingState := ⟨false, 0, [], false, false, none, false⟩

/-- Witness for claim C3 at the idle not-ready state. -/
theorem C3_start_not_ready_witness :
    notReadyState.compositeStreamReady = false ∧
    notReadyState.isRecording = false ∧
    ((startRecording true notReadyState).isRecording = false ∧
    (startRecording true notReadyState).recordedChunks = notReadyState.recordedChunks ∧
    (startRecording true notReadyState).mediaRecorderOpen = notReadyState.mediaRecorderOpen ∧
    (startRecording true notReadyState).intervalActive = notReadyState.intervalActive ∧
    (startRecording true notReadyState).recordingDuration = notReadyState.recordingDuration ∧
    (startRecording true notReadyState).error = some notReadyMsg) :=
  ⟨rfl, rfl, C3_start_not_ready true notReadyState rfl rfl⟩

/-- Claim C4: whenever saveRecording performs the metadata append, the trace
also contains the object-store write and its transaction completion, in that
order before the append; the in-memory refresh comes after the append, and the
append happens exactly once — it never precedes or interleaves with the
object-store write. -/
theorem C4_metadata_after_commit (env : ThumbEnv) (now : Nat) (dateStr : String)
    (dur : Nat) (chunks : List Blob) (s : PersistState)
    (h : SaveEvent.metadataAppend ∈ (saveRecording env now dateStr dur chunks s).2) :
    SaveEvent.objectStoreAdd ∈ (saveRecording env now dateStr dur chunks s).2 ∧
    SaveEvent.txComplete ∈ (saveRecording env now dateStr dur chunks s).2 ∧
    (saveRecording env now dateStr dur chunks s).2.indexOf SaveEvent.objectStoreAdd
      < (saveRecording env now dateStr dur chunks s).2.indexOf SaveEvent.txComplete ∧
    (saveRecording env now dateStr dur chunks s).2.indexOf SaveEvent.txComplete
      < (saveRecording env now dateStr dur chunks s).2.indexOf SaveEvent.metadataAppend ∧
    (saveRecording env now dateStr dur chunks s).2.indexOf SaveEvent.metadataAppend
      < (saveRecording env now dateStr dur chunks s).2.indexOf SaveEvent.stateRefresh ∧
    (saveRecording env now dateStr dur chunks s).2.count SaveEvent.metadataAppend = 1 := by
  by_cases hc : chunks.length = 0
  · exfalso
    simp [saveRecording, hc] at h
  · cases hgen : generateThumbnail env (concatBlob chunks) with
    | error e =>
        exfalso
        simp [saveRecording, hc, hgen] at h
    | ok pair =>
        have htr : (saveRecording env now dateStr dur chunks s).2
            = [SaveEvent.thumbnailGen, SaveEvent.dbOpen, SaveEvent.objectStoreAdd,
                SaveEvent.txComplete, SaveEvent.metadataAppend,
                SaveEvent.stateRefresh] := by
          simp [saveRecording, hc, hgen]
        rw [htr]
        decide

/-- An environment whose decoder reports a 4 second video for every blob. -/
def okThumbEnv : ThumbEnv := ⟨true, fun _ => some 4, fun _ _ => "data:image/jpeg;ok"⟩

/-- An environment whose decoder fails on every blob. -/
def badThumbEnv : ThumbEnv := ⟨true, fun _ => none, fun _ _ => "data:image/jpeg;ok"⟩

/-- The state with both stores empty and no error banner. -/
def emptyPersist : PersistState := ⟨[], [], [], none⟩

/-- Witness for claim C4 on a one-chunk recording saved into empty stores. -/
theorem C4_metadata_after_commit_witness :
    SaveEvent.metadataAppend
        ∈ (saveRecording okThumbEnv 5 "d" 2 [Blob.mk 3] emptyPersist).2 ∧
    (SaveEvent.objectStoreAdd
        ∈ (saveRecording okThumbEnv 5 "d" 2 [Blob.mk 3] emptyPersist).2 ∧
    SaveEvent.txComplete
        ∈ (saveRecording okThumbEnv 5 "d" 2 [Blob.mk 3] emptyPersist).2 ∧
    (saveRecording okThumbEnv 5 "d" 2 [Blob.mk 3] emptyPersist).2.indexOf
        SaveEvent.objectStoreAdd
      < (saveRecording okThumbEnv 5 "d" 2 [Blob.mk 3] emptyPersist).2.indexOf
        SaveEvent.txComplete ∧
    (saveRecording okThumbEnv 5 "d" 2 [Blob.mk 3] emptyPersist).2.indexOf
        SaveEvent.txComplete
      < (saveRecording okThumbEnv 5 "d" 2 [Blob.mk 3] emptyPersist).2.indexOf
        SaveEvent.metadataAppend ∧
    (saveRecording okThumbEnv 5 "d" 2 [Blob.mk 3] emptyPersist).2.indexOf
        SaveEvent.metadataAppend
      < (saveRecording okThumbEnv 5 "d" 2 [Blob.mk 3] emptyPersist).2.indexOf
        SaveEvent.stateRefresh ∧
    (saveRecording okThumbEnv 5 "d" 2 [Blob.mk 3] emptyPersist).2.count
        SaveEvent.metadataAppend = 1) :=
  ⟨by decide, C4_metadata_after_commit okThumbEnv 5 "d" 2 [Blob.mk 3] emptyPersist
    (by decide)⟩

/-- Claim C10: when thumbnail generation rejects for the assembled payload of a
non-empty chunk buffer, saveRecording aborts before any store access — the
object store, the key-value metadata list and the in-memory list are all
unchanged, the save error is surfaced, and the trace shows no database open,
no object-store write and no metadata append. -/
theorem C10_thumb_fail_aborts (env : ThumbEnv) (now : Nat) (dateStr : String)
    (dur : Nat) (chunks : List Blob) (s : PersistState)
    (hne : chunks.length ≠ 0)
    (hfail : ∃ msg, generateThumbnail env (concatBlob chunks) = Except.error msg) :
    (saveRecording env now dateStr dur chunks s).1.objectStore = s.objectStore ∧
    (saveRecording env now dateStr dur chunks s).1.metadataKV = s.metadataKV ∧
    (saveRecording env now dateStr dur chunks s).1.recordedVideos = s.recordedVideos ∧
    (saveRecording env now dateStr dur chunks s).1.error
        = some "Failed to save recording" ∧
    (saveRecording env now dateStr dur chunks s).2
        = [SaveEvent.thumbnailGen, SaveEvent.errorSurfaced] ∧
    SaveEvent.dbOpen ∉ (saveRecording env now dateStr dur chunks s).2 ∧
    SaveEvent.objectStoreAdd ∉ (saveRecording env now dateStr dur chunks s).2 ∧
    SaveEvent.metadataAppend ∉ (saveRecording env now dateStr dur chunks s).2 := by
  obtain ⟨msg, hm⟩ := hfail
  have h1 : saveRecording env now dateStr dur chunks s
      = ({ s with error := some "Failed to save recording" },
          [SaveEvent.thumbnailGen, SaveEvent.errorSurfaced]) := by
    simp [saveRecording, hne, hm]
  rw [h1]
  refine ⟨rfl, rfl, rfl, rfl, rfl, ?_, ?_, ?_⟩ <;> simp

/-- Witness for claim C10 on a one-chunk recording whose payload the
environment cannot decode as video. -/
theorem C10_thumb_fail_aborts_witness :
    ([Blob.mk 3] : List Blob).length ≠ 0 ∧
    (∃ msg, generateThumbnail badThumbEnv (concatBlob [Blob.mk 3])
        = Except.error msg) ∧
    ((saveRecording badThumbEnv 7 "d" 1 [Blob.mk 3] emptyPersist).1.objectStore
        = emptyPersist.objectStore ∧
    (saveRecording badThumbEnv 7 "d" 1 [Blob.mk 3] emptyPersist).1.metadataKV
        = emptyPersist.metadataKV ∧
    (saveRecording badThumbEnv 7 "d" 1 [Blob.mk 3] emptyPersist).1.recordedVideos
        = emptyPersist.recordedVideos ∧
    (saveRecording badThumbEnv 7 "d" 1 [Blob.mk 3] emptyPersist).1.error
        = some "Failed to save recording" ∧
    (saveRecording badThumbEnv 7 "d" 1 [Blob.mk 3] emptyPersist).2
        = [SaveEvent.thumbnailGen, SaveEvent.errorSurfaced] ∧
    SaveEvent.dbOpen ∉ (saveRecording badThumbEnv 7 "d" 1 [Blob.mk 3] emptyPersist).2 ∧
    SaveEvent.objectStoreAdd
        ∉ (saveRecording badThumbEnv 7 "d" 1 [Blob.mk 3] emptyPersist).2 ∧
    SaveEvent.metadataAppend
        ∉ (saveRecording badThumbEnv 7 "d" 1 [Blob.mk 3] emptyPersist).2) :=
  ⟨by decide, ⟨"Error loading video for thumbnail", rfl⟩,
    C10_thumb_fail_aborts badThumbEnv 7 "d" 1 [Blob.mk 3] emptyPersist (by decide)
      ⟨"Error loading video for thumbnail", rfl⟩⟩

lemma backfillVideo_id (env : ThumbEnv) (s : PersistState) (v : RecordedVideo) :
    (backfillVideo env s v).id = v.id := by
  unfold backfillVideo
  split
  · split
    · split
      · rfl
      · rfl
    · rfl
  · rfl

/-- Claim C5: after deleteVideo, looking the id up in the object store yields
nothing (a not-found condition), the key-value and in-memory copies of the
metadata list are identical, and the list returned by a subsequent
loadSavedVideos (in both its persisted and in-memory copies) contains no entry
with the deleted id. -/
theorem C5_delete_consistency (env : ThumbEnv) (videoId : String)
    (s : PersistState) :
    getVideo videoId (deleteVideo videoId s) = none ∧
    (deleteVideo videoId s).metadataKV = (deleteVideo videoId s).recordedVideos ∧
    ((loadSavedVideos env (deleteVideo videoId s)).metadataKV.all
        (fun v => v.id != videoId)) = true ∧
    ((loadSavedVideos env (deleteVideo videoId s)).recordedVideos.all
        (fun v => v.id != videoId)) = true := by
  have hall : ((deleteVideo videoId s).metadataKV.map
      (backfillVideo env (deleteVideo videoId s))).all
        (fun v => v.id != videoId) = true := by
    rw [List.all_eq_true]
    intro v hv
    rw [List.mem_map] at hv
    obtain ⟨u, hu, rfl⟩ := hv
    have hu2 : (u.id != videoId) = true := by
      have := (List.mem_filter.mp hu).2
      simpa using this
    simpa [backfillVideo_id] using hu2
  refine ⟨?_, rfl, hall, hall⟩
  rw [getVideo, List.find?_eq_none]
  intro x hx
  have hx2 := (List.mem_filter.mp hx).2
  simp only [bne_iff_ne, ne_eq] at hx2
  simp [hx2]

/-- Claim C6: for every payload the environment decodes as a video of duration
d, generateThumbnail resolves with the trace that loads metadata first, then
seeks to min 1 (d / 2), and captures the frame only after the seek completed;
the captured frame is rasterized at that same time. -/
theorem C6_thumbnail_seek (env : ThumbEnv) (b : Blob) (d : ℚ)
    (hctx : env.canvasCtxOk = true) (hdec : env.decode b = some d) :
    generateThumbnail env b
        = Except.ok (thumbTrace (min 1 (d / 2)), env.rasterize b (min 1 (d / 2))) ∧
    (thumbTrace (min 1 (d / 2)))[0]? = some ThumbEvent.loadedMetadata ∧
    (thumbTrace (min 1 (d / 2)))[1]? = some (ThumbEvent.seekTo (min 1 (d / 2))) ∧
    (thumbTrace (min 1 (d / 2)))[2]? = some ThumbEvent.seeked ∧
    (thumbTrace (min 1 (d / 2)))[3]? = some ThumbEvent.captureFrame := by
  refine ⟨?_, rfl, rfl, rfl, rfl⟩
  simp [generateThumbnail, hctx, hdec]

/-- Witness for claim C6 on a blob decoded as a 4 second video, seeking to
min 1 (4 / 2) = 1 second. -/
theorem C6_thumbnail_seek_witness :
    okThumbEnv.canvasCtxOk = true ∧
    okThumbEnv.decode (Blob.mk 3) = some 4 ∧
    (generateThumbnail okThumbEnv (Blob.mk 3)
        = Except.ok (thumbTrace (min 1 ((4 : ℚ) / 2)),
            okThumbEnv.rasterize (Blob.mk 3) (min 1 ((4 : ℚ) / 2))) ∧
    (thumbTrace (min 1 ((4 : ℚ) / 2)))[0]? = some ThumbEvent.loadedMetadata ∧
    (thumbTrace (min 1 ((4 : ℚ) / 2)))[1]?
        = some (ThumbEvent.seekTo (min 1 ((4 : ℚ) / 2))) ∧
    (thumbTrace (min 1 ((4 : ℚ) / 2)))[2]? = some ThumbEvent.seeked ∧
    (thumbTrace (min 1 ((4 : ℚ) / 2)))[3]? = some ThumbEvent.captureFrame) :=
  ⟨rfl, rfl, C6_thumbnail_seek okThumbEnv (Blob.mk 3) 4 rfl rfl⟩

/-- Claim C7, counterexample: for the display name "a b" the export file name
is "a_b.webm" — the sanitized base name contains an underscore, which is not
an alphanumeric character, so the base name is not alphanumeric-only. -/
theorem C7_counterexample :
    downloadFileName "a b" = "a_b.webm" ∧
    ((sanitizeName "a b").toList.all isAlphanum) = false := by
  decide

/-- Claim C7 (amended): the export file name is the display name with every
non-alphanumeric character replaced by an underscore, followed by the fixed
container extension ".webm"; the sanitized base name therefore consists only
of alphanumeric characters and underscores and keeps the display name's
length. -/
theorem C7_amended_filename (videoName : String) :
    downloadFileName videoName = sanitizeName videoName ++ ".webm" ∧
    ((sanitizeName videoName).toList.all
        (fun c => isAlphanum c || (c == '_'))) = true ∧
    (sanitizeName videoName).length = videoName.length := by
  refine ⟨rfl, ?_, ?_⟩
  · have hl : (sanitizeName videoName).toList
        = videoName.toList.map sanitizeChar := rfl
    rw [hl, List.all_map, List.all_eq_true]
    intro c hc
    simp only [Function.comp]
    by_cases h : isAlphanum c <;> simp [sanitizeChar, h]
  · show (videoName.toList.map sanitizeChar).length = videoName.length
    rw [List.length_map]
    rfl

/-- Claim C8: the adapter setup tries the candidate CDN locations in their
priority order and keeps the first that succeeds (its result equals the
first-success search over the candidate list), surfaces the failure message
exactly when every candidate fails, and clears the loading flag on both
paths. -/
theorem C8_cdn_priority (ok : String → Bool) :
    (initFaceDetection ok).loaded = cdnUrls.find? ok ∧
    (initFaceDetection ok).error
        = (if cdnUrls.all (fun u => !(ok u)) then some initFailMsg else none) ∧
    (initFaceDetection ok).isLoading = false := by
  cases h1 : ok cdnUrl1 <;> cases h2 : ok cdnUrl2 <;> cases h3 : ok cdnUrl3 <;>
    simp [initFaceDetection, tryLoad, cdnUrls, List.find?_cons, h1, h2, h3]

/-- The UI state with no playback open, no error and no success banner. -/
def initialPlay : PlayState := ⟨none, none, none⟩

/-- Claim C9, counterexample: with an empty object store (a missing record),
playing or downloading id "video_1" completes silently — no error message is
surfaced, no playback reference is opened, no success banner is shown and no
download is triggered, contrary to the claimed policy. -/
theorem C9_counterexample :
    (playVideo (fun _ => "blob:missing") "video_1" emptyPersist initialPlay).error
        = none ∧
    (playVideo (fun _ => "blob:missing") "video_1" emptyPersist
        initialPlay).selectedVideo = none ∧
    (downloadVideo "video_1" "clip" emptyPersist initialPlay).1.error = none ∧
    (downloadVideo "video_1" "clip" emptyPersist initialPlay).1.successMessage
        = none ∧
    (downloadVideo "video_1" "clip" emptyPersist initialPlay).2 = none :=
  ⟨rfl, rfl, rfl, rfl, rfl⟩

/-- Claim C9 (amended): playing or downloading a recording whose record is
missing from the object store is a silent no-op — the UI state (including the
error banner) is left unchanged and no download is triggered; no human-readable
message is surfaced for this storage failure. -/
theorem C9_missing_record_silent (mkUrl : Blob → String)
    (videoId videoName : String) (s : PersistState) (ps : PlayState)
    (hmissing : getVideo videoId s = none) :
    playVideo mkUrl videoId s ps = ps ∧
    (downloadVideo videoId videoName s ps).1 = ps ∧
    (downloadVideo videoId videoName s ps).2 = none := by
  simp [playVideo, downloadVideo, hmissing]

/-- Witness for the amended claim C9 at the empty object store. -/
theorem C9_missing_record_silent_witness :
    getVideo "video_1" emptyPersist = none ∧
    (playVideo (fun _ => "blob:missing") "video_1" emptyPersist initialPlay
        = initialPlay ∧
    (downloadVideo "video_1" "clip" emptyPersist initialPlay).1 = initialPlay ∧
    (downloadVideo "video_1" "clip" emptyPersist initialPlay).2 = none) :=
  ⟨rfl, C9_missing_record_silent (fun _ => "blob:missing") "video_1" "clip"
    emptyPersist initialPlay rfl⟩

end FaceTracker
